import Mathlib

/-!
Verification of the email-agent purchase orchestrator and email service.

The definitions below are a shallow embedding of the two source files:
`test_real_purchase.py` (the purchase orchestrator: availability probe,
job creation, payment submission, bounded status-polling monitor) and
`emailService.py` (the Brevo email service with optional Gemini
enhancement). External library calls (HTTP requests, `json.loads`,
regular-expression search, the LLM invocation, the Brevo send call) are
modelled as oracle parameters of an environment record; the repository's
own logic is translated function by function.
-/

/-- JSON values, the data interchanged with the two remote services.
Mirrors the Python values produced by `response.json()`. -/
inductive Json where
  | str (s : String)
  | num (n : Int)
  | bool (b : Bool)
  | arr (elems : List Json)
  | obj (fields : List (String × Json))
  deriving Repr

/-- Python `d.get(k)` on a dict: the value at the first matching key,
or `none` when the key is absent. -/
def jget (kvs : List (String × Json)) (k : String) : Option Json :=
  match kvs with
  | [] => none
  | (k2, v) :: rest => if k2 = k then some v else jget rest k

/-- Python truthiness of a JSON value (`if result:` and `x or y`). -/
def jtruthy : Json → Bool
  | .str s => !(s = "")
  | .num n => !(n = 0)
  | .bool b => b
  | .arr l => !l.isEmpty
  | .obj l => !l.isEmpty

mutual

/-- Structural equality of JSON values, mirroring Python `==` on the
values produced by `json.loads`. -/
def jbeq : Json → Json → Bool
  | .str s, .str t => s = t
  | .num n, .num m => n = m
  | .bool a, .bool b => a = b
  | .arr l, .arr m => jbeqList l m
  | .obj l, .obj m => jbeqKV l m
  | _, _ => false

/-- Equality of JSON arrays, elementwise. -/
def jbeqList : List Json → List Json → Bool
  | [], [] => true
  | x :: xs, y :: ys => jbeq x y && jbeqList xs ys
  | _, _ => false

/-- Equality of JSON objects, as ordered key-value lists. -/
def jbeqKV : List (String × Json) → List (String × Json) → Bool
  | [], [] => true
  | (k1, v1) :: xs, (k2, v2) :: ys => k1 = k2 && jbeq v1 v2 && jbeqKV xs ys
  | _, _ => false

end

/-- Python `==` between two optional JSON values (`None` compares equal
only to `None`). -/
def objeq : Option Json → Option Json → Bool
  | none, none => true
  | some a, some b => jbeq a b
  | _, _ => false

/-! ## Email service (`emailService.py`) -/

/-- Environment of `EmailService._enhance_email_with_gemini`: library
availability, configuration, and oracles for the three external calls it
makes (the LLM invocation, `json.loads`, and the `re.search` extraction
of the first brace-delimited fragment of the model text). -/
structure EnhanceEnv where
  langchainAvailable : Bool
  gemini_api_key : String
  invoke : Except String String
  loads : String → Option Json
  regexExtract : String → Option String

/-- Python `v or s or ""` where `v` is `data.get(key)` and `s` is a
string: the first truthy operand, else the empty string. -/
def pyOrStr (v : Option Json) (s : String) : Json :=
  match v with
  | some j => if jtruthy j then j else (if s = "" then Json.str "" else Json.str s)
  | none => if s = "" then Json.str "" else Json.str s

/-- Leading-whitespace removal on a character list. -/
def dropWs (l : List Char) : List Char :=
  l.dropWhile Char.isWhitespace

/-- Python `str.strip()`: remove leading and trailing whitespace. -/
def pyStrip (s : String) : String :=
  String.mk ((dropWs ((dropWs s.data).reverse)).reverse)

/-- Python `.strip()` on a JSON value: succeeds only on a string; on any
other value the attribute access raises (`none`). -/
def stripJ : Json → Option String
  | .str s => some (pyStrip s)
  | _ => none

/-- Shallow embedding of `EmailService._enhance_email_with_gemini`: the
`(subject, body)` pair the method returns.  The `keypoints` argument only
feeds the prompt of the oracle call and does not influence control
flow. -/
def enhance_email_with_gemini (env : EnhanceEnv) (_keypoints : List String)
    (original_subject original_body : String) : String × String :=
  if !env.langchainAvailable then (original_subject, original_body)
  else if env.gemini_api_key = "" then (original_subject, original_body)
  else
    match env.invoke with
    | .error _ => (original_subject, original_body)
    | .ok text =>
      let parsed : Option Json :=
        match env.loads text with
        | some d => some d
        | none =>
          match env.regexExtract text with
          | none => none
          | some frag => env.loads frag
      match parsed with
      | none => (original_subject, original_body)
      | some (.obj kvs) =>
        match stripJ (pyOrStr (jget kvs "subject") original_subject),
              stripJ (pyOrStr (jget kvs "body") original_body) with
        | some new_subject, some new_body => (new_subject, new_body)
        | _, _ => (original_subject, original_body)
      | some _ => (original_subject, original_body)

/-- Result object of the email service (`ServiceResult`). -/
structure ServiceResult where
  recipient : String
  subject : String
  success : Bool
  message : String
  raw : String
  json_dict : List (String × Json)

/-- Constructor logic of `ServiceResult.__init__`. -/
def mkServiceResult (recipient subject : String) (success : Bool)
    (message : String) : ServiceResult :=
  { recipient := recipient
    subject := subject
    success := success
    message := message
    raw := "Email " ++ (if success then "sent" else "failed") ++ " to "
      ++ recipient ++ ": " ++ message
    json_dict := [("recipient", .str recipient), ("subject", .str subject),
      ("success", .bool success), ("message", .str message),
      ("task", .str "send_email")] }

/-- Failure modes of the Brevo send call: `ApiException` or any other
exception. -/
inductive SendErr where
  | api (e : String)
  | other (e : String)

/-- Environment of `EmailService.execute_task`: the configuration read
in `__init__` and the oracle outcome of the provider send call (the
`message_id` on success). -/
structure EmailEnv where
  brevo_api_key : String
  sender_email : String
  sender_name : String
  enhance : EnhanceEnv
  sendOutcome : Except SendErr String

/-- The `input_data` dict of `execute_task`, restricted to the three
keys the method reads (`.get` with default `""`). -/
structure EmailInput where
  recipient_email : Option String
  subject : Option String
  body : Option String

/-- The post-enhancement `(subject, body)` pair of `execute_task` (the
originals are also passed as the keypoints list). -/
def enhancedPair (env : EmailEnv) (input_data : EmailInput) : String × String :=
  enhance_email_with_gemini env.enhance
    [input_data.subject.getD "", input_data.body.getD ""]
    (input_data.subject.getD "") (input_data.body.getD "")

/-- Shallow embedding of `EmailService.execute_task`: read the inputs,
run the optional enhancement, validate, then attempt the provider send;
every exception path is caught and returned as a failed
`ServiceResult`. -/
def execute_task (env : EmailEnv) (input_data : EmailInput) : ServiceResult :=
  let recipient_email := input_data.recipient_email.getD ""
  let sb := enhancedPair env input_data
  let subject := sb.1
  let body := sb.2
  if recipient_email = "" then
    mkServiceResult recipient_email subject false "recipient_email is required"
  else if subject = "" then
    mkServiceResult recipient_email subject false "subject is required"
  else if body = "" then
    mkServiceResult recipient_email subject false "body is required"
  else if env.brevo_api_key = "" then
    mkServiceResult recipient_email subject false
      "Brevo API key not configured (BREVO_API_KEY missing)"
  else if env.sender_email = "" then
    mkServiceResult recipient_email subject false
      "Sender email not configured (SENDER_EMAIL missing)"
  else
    match env.sendOutcome with
    | .ok message_id =>
      mkServiceResult recipient_email subject true
        ("Email sent successfully to " ++ recipient_email
          ++ " (Message ID: " ++ message_id ++ ")")
    | .error (.api e) =>
      mkServiceResult recipient_email subject false ("Brevo API error: " ++ e)
    | .error (.other e) =>
      mkServiceResult recipient_email subject false ("Error sending email: " ++ e)

/-! ## Purchase orchestrator (`test_real_purchase.py`) -/

/-- Outcome of one status poll: a transport, HTTP-status, or JSON-parse
error with its exception text, or the parsed response body. -/
inductive PollResult where
  | err (e : String)
  | ok (status_data : Json)

/-- Output events of the monitoring loop: each constructor is one of the
print sites inside the `while` loop of step 4.  There is no constructor
for a timed-out report because the loop body and the code after the loop
contain no such print. -/
inductive Emit where
  | statusChange (elapsed : Nat) (job_status : Option Json) (payment_status : Option Json)
  | completedBanner
  | resultPayload (result : Json)
  | failedBanner (status_data : Json)
  | errorLog (e : String)

/-- How the monitoring loop terminated: `break` at the completed check,
`break` at the failed check, or the `while` condition turning false. -/
inductive LoopExit where
  | completed
  | failed
  | timeout
  deriving DecidableEq

/-- Result of the monitoring loop: the events printed, the way the loop
exited, and the number of status requests issued. -/
structure MonitorResult where
  emits : List Emit
  exitReason : LoopExit
  polls : Nat

/-- The fixed monitoring budget (`max_wait = 300`). -/
def max_wait : Nat := 300

/-- The fixed poll interval (`await asyncio.sleep(5)`). -/
def poll_interval : Nat := 5

/-- The result emission of the completed branch: the payload is printed
only when `if result:` holds, that is when the `result` key is present
with a truthy value. -/
def resultEmitsOf (kvs : List (String × Json)) : List Emit :=
  match jget kvs "result" with
  | some r => if jtruthy r then [.resultPayload r] else []
  | none => []

/-- One pass of the `while (time.time() - start_time) < max_wait` loop
at iteration `i`, so at elapsed time `poll_interval * i` (the network
calls are modelled as instantaneous and each non-terminal pass ends in
the fixed sleep).  `fuel` is a structural bound on the remaining
iterations; `runMonitor` supplies more fuel than the loop can consume,
so the `fuel = 0` arm (which returns the same value as the deadline arm)
is never reached. -/
def monitorGo (oracle : Nat → PollResult) : Nat → Nat → Option Json → MonitorResult
  | 0, _, _ => ⟨[], .timeout, 0⟩
  | fuel + 1, i, last_status =>
    if poll_interval * i < max_wait then
      match oracle i with
      | .err e =>
        let rest := monitorGo oracle fuel (i + 1) last_status
        ⟨.errorLog ("Status check error: " ++ e) :: rest.emits, rest.exitReason, rest.polls + 1⟩
      | .ok status_data =>
        match status_data with
        | .obj kvs =>
          let job_status := jget kvs "status"
          let payment_status := jget kvs "payment_status"
          let changeEmits : List Emit :=
            if objeq job_status last_status then []
            else [.statusChange (poll_interval * i) job_status payment_status]
          let last2 := if objeq job_status last_status then last_status else job_status
          if objeq job_status (some (.str "completed")) then
            ⟨changeEmits ++ [.completedBanner] ++ resultEmitsOf kvs, .completed, 1⟩
          else if objeq job_status (some (.str "failed")) then
            ⟨changeEmits ++ [.failedBanner status_data], .failed, 1⟩
          else
            let rest := monitorGo oracle fuel (i + 1) last2
            ⟨changeEmits ++ rest.emits, rest.exitReason, rest.polls + 1⟩
        | _ =>
          -- `status_data.get("status")` raises on a non-dict body, and
          -- the `except` arm logs and retries like any other poll error
          let rest := monitorGo oracle fuel (i + 1) last_status
          ⟨.errorLog "Status check error: status_data has no attribute get" :: rest.emits,
           rest.exitReason, rest.polls + 1⟩
    else ⟨[], .timeout, 0⟩

/-- The monitoring loop of step 4, started with `last_status = None`.
The loop runs at most `max_wait / poll_interval = 60` iterations, so
fuel 61 is never exhausted. -/
def runMonitor (oracle : Nat → PollResult) : MonitorResult :=
  monitorGo oracle 61 0 none

/-- Accumulating decimal parse of a digit list; any non-digit character
fails. -/
def parseNatDigits : List Char → Nat → Option Nat
  | [], acc => some acc
  | c :: cs, acc =>
    if c.isDigit then parseNatDigits cs (acc * 10 + (c.toNat - 48)) else none

/-- Python `int(...)` on a JSON value: accepts an int, a bool, or a
decimal string with optional leading minus sign, and raises
otherwise. -/
def pyInt (v : Json) : Option Int :=
  match v with
  | .num n => some n
  | .bool b => some (if b then 1 else 0)
  | .str s =>
    match s.data with
    | [] => none
    | c :: cs =>
      if c = '-' then
        match cs with
        | [] => none
        | _ => (parseNatDigits cs 0).map (fun n => -(n : Int))
      else (parseNatDigits (c :: cs) 0).map (fun n => (n : Int))
  | _ => none

/-- Result of the job-creation stage (step 2): the values displayed and
the `payment_details` dict forwarded to the payment service. -/
structure JobExtract where
  job_id : Json
  blockchain_id : Json
  amount_ada : ℚ
  payment_details : List (String × Json)

/-- Field extraction of step 2 (`test_real_purchase.py` lines 160-179):
best-effort key lookups on the job-creation response; a missing key,
malformed `amounts`, or non-numeric amount raises and aborts the run.
In the source, `network` is the NETWORK configuration value (not a
response field) and `paymentType` is the fixed literal
`"Web3CardanoV1"`; the division by 1 000 000 feeds only the displayed
`amount_ada`. -/
def extractJob (network : String) (job_data : Json) : Except String JobExtract :=
  match job_data with
  | .obj kvs =>
    match jget kvs "job_id" with
    | none => .error "KeyError: job_id"
    | some job_id =>
    match jget kvs "blockchainIdentifier" with
    | none => .error "KeyError: blockchainIdentifier"
    | some blockchain_id =>
    match jget kvs "amounts" with
    | none => .error "KeyError: amounts"
    | some amounts =>
    match amounts with
    | .arr (first :: _) =>
      match first with
      | .obj fkvs =>
        match jget fkvs "amount" with
        | none => .error "KeyError: amount"
        | some amount_lovelace =>
          match pyInt amount_lovelace with
          | none => .error "ValueError: invalid literal for int"
          | some n =>
            match jget kvs "input_hash" with
            | none => .error "KeyError: input_hash"
            | some input_hash =>
            match jget kvs "sellerVKey" with
            | none => .error "KeyError: sellerVKey"
            | some sellerVKey =>
            match jget kvs "agentIdentifier" with
            | none => .error "KeyError: agentIdentifier"
            | some agentIdentifier =>
            match jget kvs "unlockTime" with
            | none => .error "KeyError: unlockTime"
            | some unlockTime =>
            match jget kvs "externalDisputeUnlockTime" with
            | none => .error "KeyError: externalDisputeUnlockTime"
            | some externalDisputeUnlockTime =>
            match jget kvs "submitResultTime" with
            | none => .error "KeyError: submitResultTime"
            | some submitResultTime =>
            match jget kvs "payByTime" with
            | none => .error "KeyError: payByTime"
            | some payByTime =>
            match jget kvs "identifierFromPurchaser" with
            | none => .error "KeyError: identifierFromPurchaser"
            | some identifierFromPurchaser =>
              .ok
                { job_id := job_id
                  blockchain_id := blockchain_id
                  amount_ada := (n : ℚ) / 1000000
                  payment_details := [
                    ("blockchainIdentifier", blockchain_id),
                    ("network", .str network),
                    ("inputHash", input_hash),
                    ("sellerVkey", sellerVKey),
                    ("agentIdentifier", agentIdentifier),
                    ("paymentType", .str "Web3CardanoV1"),
                    ("unlockTime", unlockTime),
                    ("externalDisputeUnlockTime", externalDisputeUnlockTime),
                    ("submitResultTime", submitResultTime),
                    ("payByTime", payByTime),
                    ("identifierFromPurchaser", identifierFromPurchaser),
                    ("amounts", amounts)] }
      | _ => .error "TypeError: amounts entry is not a dict"
    | _ => .error "amounts is not a nonempty list"
  | _ => .error "TypeError: job_data is not a dict"

/-- Outcome of the payment-submission POST (step 3):
`requests.exceptions.HTTPError` carries the response text printed by the
handler; any other exception carries only its text. -/
inductive PurchaseOutcome where
  | ok (body : Json)
  | httpError (e : String) (responseText : String)
  | otherError (e : String)

/-- One outbound HTTP request of the orchestrator, with the forwarded
payment body recorded on the purchase POST. -/
inductive Req where
  | availability
  | startJob
  | purchase (payment_details : List (String × Json))
  | statusPoll (i : Nat)

/-- Is this request the job-creation POST? -/
def isStartJob : Req → Bool
  | .startJob => true
  | _ => false

/-- Is this request the payment-submission POST? -/
def isPurchase : Req → Bool
  | .purchase _ => true
  | _ => false

/-- Is this request a status poll? -/
def isStatusPoll : Req → Bool
  | .statusPoll _ => true
  | _ => false

/-- Environment of one orchestration run: configuration and oracles for
the four kinds of network calls. -/
structure Env where
  purchaser_api_key : Option String
  network : String
  availability : Except String Unit
  startJobResp : Except String Json
  purchaseResp : PurchaseOutcome
  statusOracle : Nat → PollResult

/-- Observable outcome of one orchestration run: the outbound requests
in order, the stage-level `print_error` diagnostics, the monitor result
when monitoring was reached, the displayed ADA amount, and the recorded
transaction handle. -/
structure RunResult where
  requests : List Req
  errors : List String
  monitor : Option MonitorResult
  displayedAda : Option ℚ
  txHash : Option Json

/-- Python `a or b` on two optional JSON values (used for
`...get("txHash") or ...get("transactionHash")`). -/
def pyOrJ (a b : Option Json) : Option Json :=
  match a with
  | some v => if jtruthy v then some v else b
  | none => b

/-- Shallow embedding of `main()` in `test_real_purchase.py`: the
configuration gate, availability probe, job creation, payment
submission, and bounded monitor, each stage aborting the rest on
failure. -/
def runMain (env : Env) : RunResult :=
  match env.purchaser_api_key with
  | none => ⟨[], [], none, none, none⟩
  | some _ =>
    match env.availability with
    | .error e =>
      ⟨[.availability], ["Cannot connect to service: " ++ e], none, none, none⟩
    | .ok _ =>
      match env.startJobResp with
      | .error e =>
        ⟨[.availability, .startJob], ["Failed to create job: " ++ e], none, none, none⟩
      | .ok job_data =>
        match extractJob env.network job_data with
        | .error e =>
          ⟨[.availability, .startJob], ["Failed to create job: " ++ e], none, none, none⟩
        | .ok jx =>
          match env.purchaseResp with
          | .httpError e responseText =>
            ⟨[.availability, .startJob, .purchase jx.payment_details],
             ["Payment failed: " ++ e, "Response: " ++ responseText],
             none, some jx.amount_ada, none⟩
          | .otherError e =>
            ⟨[.availability, .startJob, .purchase jx.payment_details],
             ["Payment error: " ++ e], none, some jx.amount_ada, none⟩
          | .ok body =>
            match body with
            | .obj bkvs =>
              match (jget bkvs "data").getD (.obj []) with
              | .obj dkvs =>
                let tx_hash := pyOrJ (jget dkvs "txHash") (jget dkvs "transactionHash")
                let m := runMonitor env.statusOracle
                ⟨[.availability, .startJob, .purchase jx.payment_details]
                   ++ (List.range m.polls).map Req.statusPoll,
                 [], some m, some jx.amount_ada, tx_hash⟩
              | _ =>
                -- a non-dict `data` value makes `.get("txHash")` raise,
                -- caught by the generic handler of stage 3
                ⟨[.availability, .startJob, .purchase jx.payment_details],
                 ["Payment error: AttributeError"], none, some jx.amount_ada, none⟩
            | _ =>
              -- a non-dict response body makes `.get("data", ...)` raise
              ⟨[.availability, .startJob, .purchase jx.payment_details],
               ["Payment error: AttributeError"], none, some jx.amount_ada, none⟩

/-! ## Classifiers and concrete test inputs -/

/-- The status object of a successful poll makes neither terminal test
of the loop fire. -/
def nonTerminalStatus (kvs : List (String × Json)) : Prop :=
  objeq (jget kvs "status") (some (.str "completed")) = false ∧
  objeq (jget kvs "status") (some (.str "failed")) = false

/-- A poll outcome that does not terminate the loop: a query error, a
non-dict body, or a body whose status is neither completed nor
failed. -/
def nonTerminalPoll : PollResult → Prop
  | .err _ => True
  | .ok (.obj kvs) => nonTerminalStatus kvs
  | .ok _ => True

/-- Emissions that are neither a terminal banner nor a result payload:
status-change records and per-poll error logs. -/
def benign : Emit → Bool
  | .statusChange _ _ _ => true
  | .errorLog _ => true
  | _ => false

/-- Is this emission the completed banner? -/
def isCompletedBanner : Emit → Bool
  | .completedBanner => true
  | _ => false

/-- Is this emission the failure report with the full status payload? -/
def isFailedBanner : Emit → Bool
  | .failedBanner _ => true
  | _ => false

/-- Is this emission a result payload? -/
def isResultPayload : Emit → Bool
  | .resultPayload _ => true
  | _ => false

/-- Is this emission a status-change record? -/
def isStatusChange : Emit → Bool
  | .statusChange _ _ _ => true
  | _ => false

/-- Is this JSON value a dict? -/
def isObjJ : Json → Bool
  | .obj _ => true
  | _ => false

/-- The string `pat` occurs verbatim inside `s`. -/
def containsSub (s pat : String) : Prop :=
  ∃ a c, s = a ++ pat ++ c

/-- A job-creation response carrying every required field, plus a
`network` field that differs from the configured NETWORK value. -/
def cexJobKvs : List (String × Json) := [
  ("job_id", .str "job-1"),
  ("blockchainIdentifier", .str "bc-1"),
  ("network", .str "Mainnet"),
  ("input_hash", .str "ih-1"),
  ("sellerVKey", .str "vk-1"),
  ("agentIdentifier", .str "agent-1"),
  ("unlockTime", .str "1000"),
  ("externalDisputeUnlockTime", .str "2000"),
  ("submitResultTime", .str "1500"),
  ("payByTime", .str "900"),
  ("identifierFromPurchaser", .str "2ccab9ca3c8fd56f"),
  ("amounts", .arr [.obj [("amount", .str "5000000"), ("unit", .str "lovelace")]])]

/-- The same response as a JSON value. -/
def cexJobData : Json := .obj cexJobKvs

/-- The extraction result on `cexJobData` (total by evaluation). -/
def cexJx : JobExtract :=
  (extractJob "Preprod" cexJobData).toOption.getD ⟨.str "", .str "", 0, []⟩

/-- A status oracle that always reports the same pending status. -/
def pendOracle : Nat → PollResult := fun _ =>
  .ok (.obj [("status", .str "pending"), ("payment_status", .str "locked")])

/-- A status oracle: two pending polls, then completed with a result. -/
def compOracle : Nat → PollResult := fun i =>
  if i < 2 then .ok (.obj [("status", .str "pending")])
  else .ok (.obj [("status", .str "completed"), ("result", .str "done")])

/-- A status oracle: completed at once, with a present but empty
result field. -/
def emptyResOracle : Nat → PollResult := fun _ =>
  .ok (.obj [("status", .str "completed"), ("result", .str "")])

/-- A status oracle: a transport error on the first poll, then
pending. -/
def errOracle : Nat → PollResult := fun i =>
  if i = 0 then .err "connection reset" else .ok (.obj [("status", .str "pending")])

/-- An orchestration environment whose payment submission is rejected
with the structured insufficient-funds body. -/
def cexPayEnv : Env :=
  { purchaser_api_key := some "purchaser-key"
    network := "Preprod"
    availability := .ok ()
    startJobResp := .ok cexJobData
    purchaseResp := .httpError "402 Client Error"
      "\x7b\"message\":\"insufficient funds\"\x7d"
    statusOracle := pendOracle }

/-- An orchestration environment whose health check fails. -/
def cexDownEnv : Env :=
  { purchaser_api_key := some "purchaser-key"
    network := "Preprod"
    availability := .error "Connection refused"
    startJobResp := .ok cexJobData
    purchaseResp := .ok (.obj [("data", .obj [("txHash", .str "abc123")])])
    statusOracle := pendOracle }

/-- An enhancement environment that is fully configured and whose model
answer parses to a subject and body. -/
def cexEnhOk : EnhanceEnv :=
  { langchainAvailable := true
    gemini_api_key := "gk-1"
    invoke := .ok "model text"
    loads := fun _ => some (.obj [("subject", .str "Hello"), ("body", .str "World")])
    regexExtract := fun _ => none }

/-- An enhancement environment whose libraries are not installed. -/
def cexEnhOff : EnhanceEnv :=
  { langchainAvailable := false
    gemini_api_key := ""
    invoke := .error "unused"
    loads := fun _ => none
    regexExtract := fun _ => none }

/-- An email environment with working enhancement and provider. -/
def cexEmailEnv : EmailEnv :=
  { brevo_api_key := "bk-1"
    sender_email := "sender@example.com"
    sender_name := "Email Service"
    enhance := cexEnhOk
    sendOutcome := .ok "msg-id-1" }

/-- An `input_data` dict with no subject key. -/
def cexEmailInput : EmailInput :=
  { recipient_email := some "user@example.com"
    subject := none
    body := some "draft body" }

/-- A fully supplied `input_data` dict. -/
def cexEmailInputFull : EmailInput :=
  { recipient_email := some "user@example.com"
    subject := some "A subject"
    body := some "A body" }

/-- An email environment without enhancement whose provider call
raises. -/
def cexEmailEnvErr : EmailEnv :=
  { brevo_api_key := "bk-1"
    sender_email := "sender@example.com"
    sender_name := "Email Service"
    enhance := cexEnhOff
    sendOutcome := .error (.other "boom") }

/-! ## Monitor lemmas -/

theorem benign_not_terminal (e : Emit) (h : benign e = true) :
    isCompletedBanner e = false ∧ isFailedBanner e = false ∧
    isResultPayload e = false := by
  cases e <;> simp_all [benign, isCompletedBanner, isFailedBanner, isResultPayload]

/-- Unfolding one non-terminal iteration of the monitoring loop: the
loop logs at most a status change or an error, counts one poll, and
continues at the next index. -/
theorem monitorGo_step (oracle : Nat → PollResult) (fuel i : Nat)
    (last : Option Json) (hd : poll_interval * i < max_wait)
    (hnt : nonTerminalPoll (oracle i)) :
    ∃ pre last2,
      (∀ e ∈ pre, benign e = true) ∧
      monitorGo oracle (fuel + 1) i last =
        ⟨pre ++ (monitorGo oracle fuel (i + 1) last2).emits,
         (monitorGo oracle fuel (i + 1) last2).exitReason,
         (monitorGo oracle fuel (i + 1) last2).polls + 1⟩ := by
  cases ho : oracle i with
  | err e =>
    refine ⟨[.errorLog ("Status check error: " ++ e)], last, ?_, ?_⟩
    · intro x hx
      simp only [List.mem_singleton] at hx
      subst hx; rfl
    · simp [monitorGo, hd, ho]
  | ok sd =>
    rw [ho] at hnt
    cases sd with
    | obj kvs =>
      obtain ⟨hc, hf⟩ := hnt
      by_cases hch : objeq (jget kvs "status") last = true
      · refine ⟨[], last, by simp, ?_⟩
        simp [monitorGo, hd, ho, hch, hc, hf]
      · have hch2 : objeq (jget kvs "status") last = false := by
          revert hch; cases objeq (jget kvs "status") last <;> simp
        refine ⟨[.statusChange (poll_interval * i) (jget kvs "status")
            (jget kvs "payment_status")], jget kvs "status", ?_, ?_⟩
        · intro x hx
          simp only [List.mem_singleton] at hx
          subst hx; rfl
        · simp [monitorGo, hd, ho, hch2, hc, hf]
    | str s =>
      refine ⟨[.errorLog "Status check error: status_data has no attribute get"],
        last, ?_, by simp [monitorGo, hd, ho]⟩
      intro x hx; simp only [List.mem_singleton] at hx; subst hx; rfl
    | num n =>
      refine ⟨[.errorLog "Status check error: status_data has no attribute get"],
        last, ?_, by simp [monitorGo, hd, ho]⟩
      intro x hx; simp only [List.mem_singleton] at hx; subst hx; rfl
    | bool b =>
      refine ⟨[.errorLog "Status check error: status_data has no attribute get"],
        last, ?_, by simp [monitorGo, hd, ho]⟩
      intro x hx; simp only [List.mem_singleton] at hx; subst hx; rfl
    | arr l =>
      refine ⟨[.errorLog "Status check error: status_data has no attribute get"],
        last, ?_, by simp [monitorGo, hd, ho]⟩
      intro x hx; simp only [List.mem_singleton] at hx; subst hx; rfl

/-- Skipping a block of `n` non-terminal polls, all before the
deadline: the loop emits only benign events for them, counts `n` polls,
and continues at index `i + n`. -/
theorem monitorGo_skip (oracle : Nat → PollResult) :
    ∀ (n fuel i : Nat) (last : Option Json),
      (∀ j, i ≤ j → j < i + n → nonTerminalPoll (oracle j)) →
      poll_interval * (i + n) ≤ max_wait →
      n ≤ fuel →
      ∃ pre last2, (∀ e ∈ pre, benign e = true) ∧
        monitorGo oracle fuel i last =
          ⟨pre ++ (monitorGo oracle (fuel - n) (i + n) last2).emits,
           (monitorGo oracle (fuel - n) (i + n) last2).exitReason,
           (monitorGo oracle (fuel - n) (i + n) last2).polls + n⟩ := by
  intro n
  induction n with
  | zero =>
    intro fuel i last _ _ _
    exact ⟨[], last, by simp, by simp⟩
  | succ m ih =>
    intro fuel i last hnt hdl hf
    obtain ⟨f, rfl⟩ : ∃ f, fuel = f + 1 := ⟨fuel - 1, by omega⟩
    have hd : poll_interval * i < max_wait := by
      simp only [poll_interval, max_wait] at hdl ⊢
      omega
    obtain ⟨pre1, last2, hb1, heq1⟩ :=
      monitorGo_step oracle f i last hd (hnt i le_rfl (by omega))
    obtain ⟨pre2, last3, hb2, heq2⟩ :=
      ih f (i + 1) last2 (fun j h1 h2 => hnt j (by omega) (by omega))
        (by simp only [poll_interval, max_wait] at hdl ⊢; omega) (by omega)
    refine ⟨pre1 ++ pre2, last3, ?_, ?_⟩
    · intro e he
      rcases List.mem_append.mp he with h | h
      exacts [hb1 e h, hb2 e h]
    · rw [heq1, heq2]
      simp only [show f - m = f + 1 - (m + 1) from by omega,
        show i + 1 + m = i + (m + 1) from by omega]
      simp [List.append_assoc, Nat.add_assoc]

/-- An iteration entered before the deadline issues at least one status
request. -/
theorem monitorGo_polls_pos (oracle : Nat → PollResult) (fuel i : Nat)
    (last : Option Json) (hd : poll_interval * i < max_wait) :
    1 ≤ (monitorGo oracle (fuel + 1) i last).polls := by
  cases ho : oracle i with
  | err e => simp [monitorGo, hd, ho]
  | ok sd =>
    cases sd with
    | obj kvs =>
      simp only [monitorGo, ho]
      rw [if_pos hd]
      split
      · simp
      · split
        · simp
        · simp
    | str s => simp [monitorGo, hd, ho]
    | num n => simp [monitorGo, hd, ho]
    | bool b => simp [monitorGo, hd, ho]
    | arr l => simp [monitorGo, hd, ho]

/-- A poll before the deadline whose body reports `completed`: the loop
emits at most a status change, then the completed banner and the result
payload when truthy, and breaks after this single poll. -/
theorem monitorGo_completed_step (oracle : Nat → PollResult) (f i : Nat)
    (last : Option Json) (kvs : List (String × Json))
    (hd : poll_interval * i < max_wait) (hok : oracle i = .ok (.obj kvs))
    (hst : jget kvs "status" = some (.str "completed")) :
    ∃ ch, (∀ e ∈ ch, benign e = true) ∧
      monitorGo oracle (f + 1) i last =
        ⟨ch ++ [.completedBanner] ++ resultEmitsOf kvs, .completed, 1⟩ := by
  have hcb : objeq (jget kvs "status") (some (.str "completed")) = true := by
    rw [hst]; simp [objeq, jbeq]
  by_cases hch : objeq (jget kvs "status") last = true
  · exact ⟨[], by simp, by simp [monitorGo, hd, hok, hch, hcb]⟩
  · have hch2 : objeq (jget kvs "status") last = false := by
      revert hch; cases objeq (jget kvs "status") last <;> simp
    refine ⟨[.statusChange (poll_interval * i) (jget kvs "status")
        (jget kvs "payment_status")], ?_, ?_⟩
    · intro x hx; simp only [List.mem_singleton] at hx; subst hx; rfl
    · simp [monitorGo, hd, hok, hch2, hcb]

/-- A poll before the deadline whose body reports `failed`: the loop
emits at most a status change, then the failure report with the full
status payload, and breaks after this single poll. -/
theorem monitorGo_failed_step (oracle : Nat → PollResult) (f i : Nat)
    (last : Option Json) (kvs : List (String × Json))
    (hd : poll_interval * i < max_wait) (hok : oracle i = .ok (.obj kvs))
    (hst : jget kvs "status" = some (.str "failed")) :
    ∃ ch, (∀ e ∈ ch, benign e = true) ∧
      monitorGo oracle (f + 1) i last =
        ⟨ch ++ [.failedBanner (.obj kvs)], .failed, 1⟩ := by
  have hcb : objeq (jget kvs "status") (some (.str "completed")) = false := by
    rw [hst]; simp [objeq, jbeq]
  have hfb : objeq (jget kvs "status") (some (.str "failed")) = true := by
    rw [hst]; simp [objeq, jbeq]
  by_cases hch : objeq (jget kvs "status") last = true
  · exact ⟨[], by simp, by simp [monitorGo, hd, hok, hch, hcb, hfb]⟩
  · have hch2 : objeq (jget kvs "status") last = false := by
      revert hch; cases objeq (jget kvs "status") last <;> simp
    refine ⟨[.statusChange (poll_interval * i) (jget kvs "status")
        (jget kvs "payment_status")], ?_, ?_⟩
    · intro x hx; simp only [List.mem_singleton] at hx; subst hx; rfl
    · simp [monitorGo, hd, hok, hch2, hcb, hfb]

/-- The first poll of the run, returning a non-terminal status object:
since the last observed status starts as `None`, a change record is
always emitted, and the loop continues with the new status. -/
theorem monitorGo_first_change (oracle : Nat → PollResult) (f : Nat)
    (kvs : List (String × Json)) (s : String)
    (h0 : oracle 0 = .ok (.obj kvs)) (hs : jget kvs "status" = some (.str s))
    (hc : s ≠ "completed") (hf : s ≠ "failed") :
    monitorGo oracle (f + 1) 0 none =
      ⟨.statusChange 0 (some (.str s)) (jget kvs "payment_status")
          :: (monitorGo oracle f 1 (some (.str s))).emits,
       (monitorGo oracle f 1 (some (.str s))).exitReason,
       (monitorGo oracle f 1 (some (.str s))).polls + 1⟩ := by
  have hd0 : 0 < max_wait := by show 0 < 300; omega
  have hcb : objeq (some (.str s)) (some (.str "completed")) = false := by
    simp [objeq, jbeq, hc]
  have hfb : objeq (some (.str s)) (some (.str "failed")) = false := by
    simp [objeq, jbeq, hf]
  have hch : objeq (some (.str s)) none = false := rfl
  simp [monitorGo, hd0, h0, hch, hcb, hfb, hs]

/-- With a constant non-terminal status equal to the last observed one,
the loop runs silently to the deadline. -/
theorem monitorGo_const_silent (oracle : Nat → PollResult)
    (kvs : List (String × Json)) (s : String)
    (hconst : ∀ j, oracle j = .ok (.obj kvs))
    (hs : jget kvs "status" = some (.str s))
    (hc : s ≠ "completed") (hf : s ≠ "failed") :
    ∀ fuel i, (monitorGo oracle fuel i (some (.str s))).emits = [] ∧
      (monitorGo oracle fuel i (some (.str s))).exitReason = .timeout := by
  intro fuel
  induction fuel with
  | zero => intro i; exact ⟨rfl, rfl⟩
  | succ f ih =>
    intro i
    by_cases hd : poll_interval * i < max_wait
    · have hcb : objeq (jget kvs "status") (some (.str "completed")) = false := by
        rw [hs]; simp [objeq, jbeq, hc]
      have hfb : objeq (jget kvs "status") (some (.str "failed")) = false := by
        rw [hs]; simp [objeq, jbeq, hf]
      have hsame : objeq (jget kvs "status") (some (.str s)) = true := by
        rw [hs]; simp [objeq, jbeq]
      have hrec := ih (i + 1)
      simp [monitorGo, hd, hconst i, hcb, hfb, hsame, hrec.1, hrec.2]
    · simp [monitorGo, hd]

/-- Benign emissions are never counted as terminal banners or result
payloads. -/
theorem countP_zero_of_benign (l : List Emit)
    (hb : ∀ e ∈ l, benign e = true) :
    l.countP isCompletedBanner = 0 ∧ l.countP isFailedBanner = 0 ∧
    l.countP isResultPayload = 0 := by
  refine ⟨?_, ?_, ?_⟩ <;>
    (rw [List.countP_eq_zero]; intro e he; have h := benign_not_terminal e (hb e he))
  · simp [h.1]
  · simp [h.2.1]
  · simp [h.2.2]

/-! ## Claim C2 -/

/-- C2 (amended): if every poll before the deadline returns a
non-terminal status, the loop exits at the deadline with the timeout
exit reason after exactly 60 polls — distinct from a failed exit, since
nothing but benign status-change records and poll-error logs is emitted
— and every poll happens strictly before the deadline.  The code emits
no explicit timed-out record (the loop body and the code after the loop
contain no timeout print), so the timed-out outcome is observable only
as this exit reason and the absence of any terminal emission. -/
theorem monitor_timeout_no_late_poll (oracle : Nat → PollResult)
    (h : ∀ j, j < 60 → ∃ kvs, oracle j = .ok (.obj kvs) ∧ nonTerminalStatus kvs) :
    (runMonitor oracle).exitReason = .timeout ∧
    (runMonitor oracle).exitReason ≠ .failed ∧
    (runMonitor oracle).polls = 60 ∧
    (∀ j, j < (runMonitor oracle).polls → poll_interval * j < max_wait) ∧
    (∀ e ∈ (runMonitor oracle).emits, benign e = true) := by
  obtain ⟨pre, last2, hb, heq⟩ := monitorGo_skip oracle 60 61 0 none
    (fun j h1 h2 => by
      obtain ⟨kvs, hk, hnt⟩ := h j (by omega)
      rw [hk]; exact hnt)
    (by simp [poll_interval, max_wait]) (by omega)
  have htail : monitorGo oracle (61 - 60) (0 + 60) last2 = ⟨[], .timeout, 0⟩ := rfl
  rw [htail] at heq
  simp only [runMonitor]
  rw [heq]
  refine ⟨rfl, by simp, by simp, ?_, ?_⟩
  · intro j hj
    simp only at hj
    simp only [poll_interval, max_wait]
    omega
  · intro e he
    simp only [List.append_nil] at he
    exact hb e he

/-- C2 (counterexample to the claim as stated): on a status oracle that
always reports `pending`, the run does exit at the deadline, yet its
entire output is the single initial status-change record — no explicit
timed-out report of any kind is emitted. -/
theorem monitor_timeout_emits_nothing :
    (runMonitor pendOracle).exitReason = .timeout ∧
    (runMonitor pendOracle).emits =
      [.statusChange 0 (some (.str "pending")) (some (.str "locked"))] :=
  ⟨rfl, rfl⟩

/-- C2 (witness): the timeout theorem instantiated on the concrete
always-pending oracle. -/
theorem monitor_timeout_no_late_poll_witness :
    (runMonitor pendOracle).exitReason = .timeout ∧
    (runMonitor pendOracle).exitReason ≠ .failed ∧
    (runMonitor pendOracle).polls = 60 ∧
    (∀ j, j < (runMonitor pendOracle).polls → poll_interval * j < max_wait) ∧
    (∀ e ∈ (runMonitor pendOracle).emits, benign e = true) :=
  monitor_timeout_no_late_poll pendOracle (fun _ _ =>
    ⟨[("status", .str "pending"), ("payment_status", .str "locked")], rfl, rfl, rfl⟩)

/-! ## Claim C3 -/

/-- C3 (amended): if the polls before poll N are non-terminal and poll
N, performed before the deadline, reports `completed`, the monitor
emits the completed banner exactly once, emits the result payload
whenever a truthy result is present (a present but falsy result, such
as the empty string, is not printed), and performs no further polls;
symmetrically, if poll N reports `failed`, the monitor reports the full
status payload exactly once and performs no further polls. -/
theorem monitor_terminal_poll (oracle : Nat → PollResult) (n : Nat)
    (kvs : List (String × Json))
    (hpre : ∀ j, j < n → nonTerminalPoll (oracle j))
    (hn : poll_interval * n < max_wait)
    (hok : oracle n = .ok (.obj kvs)) :
    (jget kvs "status" = some (.str "completed") →
      (runMonitor oracle).exitReason = .completed ∧
      (runMonitor oracle).polls = n + 1 ∧
      (runMonitor oracle).emits.countP isCompletedBanner = 1 ∧
      (∀ r, jget kvs "result" = some r → jtruthy r = true →
        Emit.resultPayload r ∈ (runMonitor oracle).emits)) ∧
    (jget kvs "status" = some (.str "failed") →
      (runMonitor oracle).exitReason = .failed ∧
      (runMonitor oracle).polls = n + 1 ∧
      Emit.failedBanner (.obj kvs) ∈ (runMonitor oracle).emits ∧
      (runMonitor oracle).emits.countP isFailedBanner = 1) := by
  have hn59 : n ≤ 59 := by simp only [poll_interval, max_wait] at hn; omega
  obtain ⟨pre, last2, hb, heq⟩ := monitorGo_skip oracle n 61 0 none
    (fun j h1 h2 => hpre j (by omega))
    (by simp only [poll_interval, max_wait]; omega) (by omega)
  simp only [Nat.zero_add] at heq
  obtain ⟨f, hfeq⟩ : ∃ f, 61 - n = f + 1 := ⟨60 - n, by omega⟩
  rw [hfeq] at heq
  obtain ⟨hp1, hp2, hp3⟩ := countP_zero_of_benign pre hb
  constructor
  · intro hst
    obtain ⟨ch, hbc, hstep⟩ := monitorGo_completed_step oracle f n last2 kvs hn hok hst
    rw [hstep] at heq
    obtain ⟨hq1, hq2, hq3⟩ := countP_zero_of_benign ch hbc
    have hres : (resultEmitsOf kvs).countP isCompletedBanner = 0 := by
      cases hr : jget kvs "result" with
      | none => simp [resultEmitsOf, hr]
      | some r =>
        by_cases ht : jtruthy r = true <;>
          simp [resultEmitsOf, hr, ht, isCompletedBanner]
    refine ⟨?_, ?_, ?_, ?_⟩
    · simp only [runMonitor]; rw [heq]
    · simp only [runMonitor]; rw [heq]
      simp [Nat.add_comm]
    · simp only [runMonitor]; rw [heq]
      simp [hp1, hq1, hres, isCompletedBanner]
    · intro r hr ht
      simp only [runMonitor]; rw [heq]
      simp [resultEmitsOf, hr, ht]
  · intro hst
    obtain ⟨ch, hbc, hstep⟩ := monitorGo_failed_step oracle f n last2 kvs hn hok hst
    rw [hstep] at heq
    obtain ⟨hq1, hq2, hq3⟩ := countP_zero_of_benign ch hbc
    refine ⟨?_, ?_, ?_, ?_⟩
    · simp only [runMonitor]; rw [heq]
    · simp only [runMonitor]; rw [heq]
      simp [Nat.add_comm]
    · simp only [runMonitor]; rw [heq]
      simp
    · simp only [runMonitor]; rw [heq]
      simp [hp2, hq2, isFailedBanner]

/-- C3 (counterexample to the claim as stated): a completed poll whose
`result` field is present but empty emits the completed banner and no
result payload, against "emits the result payload if present". -/
theorem completed_empty_result_not_emitted :
    jget [("status", Json.str "completed"), ("result", Json.str "")] "result" =
      some (.str "") ∧
    (runMonitor emptyResOracle).emits =
      [.statusChange 0 (some (.str "completed")) none, .completedBanner] ∧
    (runMonitor emptyResOracle).emits.countP isResultPayload = 0 :=
  ⟨rfl, rfl, rfl⟩

/-- C3 (witness): the terminal-poll theorem on the concrete oracle that
reports pending twice and then completed with result `done`. -/
theorem monitor_terminal_poll_witness :
    (runMonitor compOracle).exitReason = .completed ∧
    (runMonitor compOracle).polls = 3 ∧
    (runMonitor compOracle).emits.countP isCompletedBanner = 1 ∧
    Emit.resultPayload (.str "done") ∈ (runMonitor compOracle).emits := by
  have h := monitor_terminal_poll compOracle 2
    [("status", .str "completed"), ("result", .str "done")]
    (by
      intro j hj
      match j with
      | 0 => exact ⟨rfl, rfl⟩
      | 1 => exact ⟨rfl, rfl⟩
      | k + 2 => omega)
    (by decide) rfl
  have h2 := h.1 rfl
  exact ⟨h2.1, h2.2.1, h2.2.2.1, h2.2.2.2 (.str "done") rfl rfl⟩

/-! ## Claim C4 -/

/-- C4: status-change records are emitted only on transitions: with
every poll of the run returning the same non-terminal status object,
the run emits exactly one change record — on the first poll, at elapsed
time 0 — and not one per poll, although all 60 polls are performed. -/
theorem status_change_only_on_transition (oracle : Nat → PollResult)
    (kvs : List (String × Json)) (s : String)
    (hconst : ∀ j, oracle j = .ok (.obj kvs))
    (hs : jget kvs "status" = some (.str s))
    (hc : s ≠ "completed") (hf : s ≠ "failed") :
    (runMonitor oracle).emits =
      [.statusChange 0 (some (.str s)) (jget kvs "payment_status")] ∧
    (runMonitor oracle).emits.countP isStatusChange = 1 ∧
    (runMonitor oracle).polls = 60 := by
  have hcb : objeq (jget kvs "status") (some (.str "completed")) = false := by
    rw [hs]; simp [objeq, jbeq, hc]
  have hfb : objeq (jget kvs "status") (some (.str "failed")) = false := by
    rw [hs]; simp [objeq, jbeq, hf]
  have hsil := monitorGo_const_silent oracle kvs s hconst hs hc hf 60 1
  have hemits : (runMonitor oracle).emits =
      [.statusChange 0 (some (.str s)) (jget kvs "payment_status")] := by
    have hu : runMonitor oracle = monitorGo oracle (60 + 1) 0 none := rfl
    rw [hu, monitorGo_first_change oracle 60 kvs s (hconst 0) hs hc hf]
    simp [hsil.1]
  refine ⟨hemits, by rw [hemits]; rfl, ?_⟩
  obtain ⟨pre, last2, hb, heq⟩ := monitorGo_skip oracle 60 61 0 none
    (fun j _ _ => by rw [hconst j]; exact ⟨hcb, hfb⟩)
    (by simp [poll_interval, max_wait]) (by omega)
  have htail : monitorGo oracle (61 - 60) (0 + 60) last2 = ⟨[], .timeout, 0⟩ := rfl
  rw [htail] at heq
  simp only [runMonitor]
  rw [heq]

/-- C4 (witness): the transition theorem on the always-pending
oracle. -/
theorem status_change_only_on_transition_witness :
    (runMonitor pendOracle).emits =
      [.statusChange 0 (some (.str "pending")) (some (.str "locked"))] ∧
    (runMonitor pendOracle).emits.countP isStatusChange = 1 ∧
    (runMonitor pendOracle).polls = 60 :=
  status_change_only_on_transition pendOracle
    [("status", .str "pending"), ("payment_status", .str "locked")] "pending"
    (fun _ => rfl) rfl (by decide) (by decide)

/-! ## Claim C5 -/

/-- C5: a transport or query error during one status poll does not
abort the monitoring loop: the error is logged and, the deadline not
being reached, at least one further poll is performed after the fixed
interval. -/
theorem poll_error_is_transient (oracle : Nat → PollResult) (n : Nat) (e : String)
    (hpre : ∀ j, j < n → nonTerminalPoll (oracle j))
    (herr : oracle n = .err e)
    (hnext : poll_interval * (n + 1) < max_wait) :
    Emit.errorLog ("Status check error: " ++ e) ∈ (runMonitor oracle).emits ∧
    n + 2 ≤ (runMonitor oracle).polls := by
  have hx : 5 * (n + 1) < 300 := hnext
  have hn : poll_interval * n < max_wait := by show 5 * n < 300; omega
  obtain ⟨pre, last2, hb, heq⟩ := monitorGo_skip oracle n 61 0 none
    (fun j h1 h2 => hpre j (by omega))
    (by show 5 * (0 + n) ≤ 300; omega) (by omega)
  simp only [Nat.zero_add] at heq
  obtain ⟨f, hfeq⟩ : ∃ f, 61 - n = (f + 1) + 1 := ⟨59 - n, by omega⟩
  rw [hfeq] at heq
  have hstep : monitorGo oracle (f + 1 + 1) n last2 =
      ⟨.errorLog ("Status check error: " ++ e)
          :: (monitorGo oracle (f + 1) (n + 1) last2).emits,
       (monitorGo oracle (f + 1) (n + 1) last2).exitReason,
       (monitorGo oracle (f + 1) (n + 1) last2).polls + 1⟩ := by
    simp [monitorGo, hn, herr]
  have hpos := monitorGo_polls_pos oracle f (n + 1) last2 hnext
  rw [hstep] at heq
  constructor
  · simp only [runMonitor]
    rw [heq]
    simp
  · simp only [runMonitor]
    rw [heq]
    dsimp only
    omega

/-- C5 (witness): a first-poll connection error on the concrete oracle
is logged and followed by further polls. -/
theorem poll_error_is_transient_witness :
    Emit.errorLog ("Status check error: " ++ "connection reset") ∈
      (runMonitor errOracle).emits ∧
    0 + 2 ≤ (runMonitor errOracle).polls :=
  poll_error_is_transient errOracle 0 "connection reset"
    (fun j hj => absurd hj (by omega)) rfl (by decide)

/-! ## Extraction lemmas -/

/-- Inversion of a successful job extraction: the response is a dict
carrying every required field, and the result is exactly the record the
source builds, with `network` from configuration and `paymentType` the
fixed literal. -/
theorem extractJob_inv (network : String) (job_data : Json) (jx : JobExtract)
    (h : extractJob network job_data = .ok jx) :
    ∃ kvs job_id blockchain_id amounts first rest fkvs amt n input_hash
      sellerVKey agentIdentifier unlockTime externalDisputeUnlockTime
      submitResultTime payByTime identifierFromPurchaser,
      job_data = .obj kvs ∧
      jget kvs "job_id" = some job_id ∧
      jget kvs "blockchainIdentifier" = some blockchain_id ∧
      jget kvs "amounts" = some amounts ∧
      amounts = .arr (first :: rest) ∧
      first = .obj fkvs ∧
      jget fkvs "amount" = some amt ∧
      pyInt amt = some n ∧
      jget kvs "input_hash" = some input_hash ∧
      jget kvs "sellerVKey" = some sellerVKey ∧
      jget kvs "agentIdentifier" = some agentIdentifier ∧
      jget kvs "unlockTime" = some unlockTime ∧
      jget kvs "externalDisputeUnlockTime" = some externalDisputeUnlockTime ∧
      jget kvs "submitResultTime" = some submitResultTime ∧
      jget kvs "payByTime" = some payByTime ∧
      jget kvs "identifierFromPurchaser" = some identifierFromPurchaser ∧
      jx = ⟨job_id, blockchain_id, (n : ℚ) / 1000000,
        [("blockchainIdentifier", blockchain_id),
         ("network", .str network),
         ("inputHash", input_hash),
         ("sellerVkey", sellerVKey),
         ("agentIdentifier", agentIdentifier),
         ("paymentType", .str "Web3CardanoV1"),
         ("unlockTime", unlockTime),
         ("externalDisputeUnlockTime", externalDisputeUnlockTime),
         ("submitResultTime", submitResultTime),
         ("payByTime", payByTime),
         ("identifierFromPurchaser", identifierFromPurchaser),
         ("amounts", amounts)]⟩ := by
  cases job_data with
  | str s => simp [extractJob] at h
  | num n => simp [extractJob] at h
  | bool b => simp [extractJob] at h
  | arr l => simp [extractJob] at h
  | obj kvs =>
    unfold extractJob at h
    cases h1 : jget kvs "job_id" with
    | none => simp [h1] at h
    | some job_id =>
    simp only [h1] at h
    cases h2 : jget kvs "blockchainIdentifier" with
    | none => simp [h2] at h
    | some blockchain_id =>
    simp only [h2] at h
    cases h3 : jget kvs "amounts" with
    | none => simp [h3] at h
    | some amounts =>
    simp only [h3] at h
    cases amounts with
    | str s => simp at h
    | num m => simp at h
    | bool b => simp at h
    | obj l => simp at h
    | arr l =>
    cases l with
    | nil => simp at h
    | cons first rest =>
    cases first with
    | str s => simp at h
    | num m => simp at h
    | bool b => simp at h
    | arr l2 => simp at h
    | obj fkvs =>
    cases h4 : jget fkvs "amount" with
    | none => simp [h4] at h
    | some amt =>
    simp only [h4] at h
    cases h5 : pyInt amt with
    | none => simp [h5] at h
    | some n =>
    simp only [h5] at h
    cases h6 : jget kvs "input_hash" with
    | none => simp [h6] at h
    | some input_hash =>
    simp only [h6] at h
    cases h7 : jget kvs "sellerVKey" with
    | none => simp [h7] at h
    | some sellerVKey =>
    simp only [h7] at h
    cases h8 : jget kvs "agentIdentifier" with
    | none => simp [h8] at h
    | some agentIdentifier =>
    simp only [h8] at h
    cases h9 : jget kvs "unlockTime" with
    | none => simp [h9] at h
    | some unlockTime =>
    simp only [h9] at h
    cases h10 : jget kvs "externalDisputeUnlockTime" with
    | none => simp [h10] at h
    | some externalDisputeUnlockTime =>
    simp only [h10] at h
    cases h11 : jget kvs "submitResultTime" with
    | none => simp [h11] at h
    | some submitResultTime =>
    simp only [h11] at h
    cases h12 : jget kvs "payByTime" with
    | none => simp [h12] at h
    | some payByTime =>
    simp only [h12] at h
    cases h13 : jget kvs "identifierFromPurchaser" with
    | none => simp [h13] at h
    | some identifierFromPurchaser =>
    simp only [h13] at h
    injection h with h14
    subst h14
    exact ⟨kvs, job_id, blockchain_id, _, _, rest, fkvs, amt, n, input_hash,
      sellerVKey, agentIdentifier, unlockTime, externalDisputeUnlockTime,
      submitResultTime, payByTime, identifierFromPurchaser,
      rfl, h1, h2, h3, rfl, rfl, h4, h5, h6, h7, h8, h9, h10, h11, h12, h13, rfl⟩

/-! ## Claim C1 -/

/-- C1 (amended): every response-sourced field of the forwarded payment
descriptor — `blockchainIdentifier`, `inputHash`, `sellerVkey`,
`agentIdentifier`, `unlockTime`, `externalDisputeUnlockTime`,
`submitResultTime`, `payByTime`, `identifierFromPurchaser` and the
whole `amounts` sequence — is forwarded verbatim and in the fixed
source order from the job-creation response; the two exceptions forced
by the source are `network`, which is taken from the NETWORK
configuration value, and `paymentType`, which is the fixed literal
`"Web3CardanoV1"`. -/
theorem payment_descriptor_construction (network : String) (job_data : Json)
    (jx : JobExtract) (h : extractJob network job_data = .ok jx) :
    ∃ kvs, job_data = .obj kvs ∧
      jx.payment_details.map Prod.fst =
        ["blockchainIdentifier", "network", "inputHash", "sellerVkey",
         "agentIdentifier", "paymentType", "unlockTime",
         "externalDisputeUnlockTime", "submitResultTime", "payByTime",
         "identifierFromPurchaser", "amounts"] ∧
      jget jx.payment_details "blockchainIdentifier" = jget kvs "blockchainIdentifier" ∧
      jget jx.payment_details "inputHash" = jget kvs "input_hash" ∧
      jget jx.payment_details "sellerVkey" = jget kvs "sellerVKey" ∧
      jget jx.payment_details "agentIdentifier" = jget kvs "agentIdentifier" ∧
      jget jx.payment_details "unlockTime" = jget kvs "unlockTime" ∧
      jget jx.payment_details "externalDisputeUnlockTime" = jget kvs "externalDisputeUnlockTime" ∧
      jget jx.payment_details "submitResultTime" = jget kvs "submitResultTime" ∧
      jget jx.payment_details "payByTime" = jget kvs "payByTime" ∧
      jget jx.payment_details "identifierFromPurchaser" = jget kvs "identifierFromPurchaser" ∧
      jget jx.payment_details "amounts" = jget kvs "amounts" ∧
      jget jx.payment_details "network" = some (.str network) ∧
      jget jx.payment_details "paymentType" = some (.str "Web3CardanoV1") := by
  obtain ⟨kvs, job_id, blockchain_id, amounts, first, rest, fkvs, amt, n,
    input_hash, sellerVKey, agentIdentifier, unlockTime,
    externalDisputeUnlockTime, submitResultTime, payByTime,
    identifierFromPurchaser, hkvs, h1, h2, h3, ha, hf2, h4, h5, h6, h7, h8,
    h9, h10, h11, h12, h13, hjx⟩ := extractJob_inv network job_data jx h
  subst hjx
  refine ⟨kvs, hkvs, rfl, ?_, ?_, ?_, ?_, ?_, ?_, ?_, ?_, ?_, ?_, rfl, rfl⟩
  · rw [h2]; rfl
  · rw [h6]; rfl
  · rw [h7]; rfl
  · rw [h8]; rfl
  · rw [h9]; rfl
  · rw [h10]; rfl
  · rw [h11]; rfl
  · rw [h12]; rfl
  · rw [h13]; rfl
  · rw [h3]; rfl

/-- C1 (counterexample to the claim as stated): the `network` field of
the forwarded descriptor is sourced from the NETWORK configuration
value, not from the job-creation response — on a response that itself
carries `network = "Mainnet"`, the descriptor forwarded under the
configuration `"Preprod"` carries `"Preprod"` — and `paymentType` is a
fixed literal that appears in no response field. -/
theorem descriptor_network_not_from_response :
    extractJob "Preprod" cexJobData = .ok cexJx ∧
    jget cexJobKvs "network" = some (.str "Mainnet") ∧
    jget cexJx.payment_details "network" = some (.str "Preprod") ∧
    jget cexJx.payment_details "network" ≠ jget cexJobKvs "network" ∧
    jget cexJx.payment_details "paymentType" = some (.str "Web3CardanoV1") ∧
    jget cexJobKvs "paymentType" = none := by
  refine ⟨rfl, rfl, rfl, ?_, rfl, rfl⟩
  intro hcon
  rw [show jget cexJx.payment_details "network" = some (.str "Preprod") from rfl,
    show jget cexJobKvs "network" = some (.str "Mainnet") from rfl] at hcon
  injection hcon with hs
  injection hs with hs2
  exact absurd hs2 (by decide)

/-- C1 (witness): the descriptor-construction theorem on the concrete
response `cexJobData` under configuration `"Preprod"`. -/
theorem payment_descriptor_construction_witness :
    ∃ kvs, cexJobData = .obj kvs ∧
      cexJx.payment_details.map Prod.fst =
        ["blockchainIdentifier", "network", "inputHash", "sellerVkey",
         "agentIdentifier", "paymentType", "unlockTime",
         "externalDisputeUnlockTime", "submitResultTime", "payByTime",
         "identifierFromPurchaser", "amounts"] ∧
      jget cexJx.payment_details "blockchainIdentifier" = jget kvs "blockchainIdentifier" ∧
      jget cexJx.payment_details "inputHash" = jget kvs "input_hash" ∧
      jget cexJx.payment_details "sellerVkey" = jget kvs "sellerVKey" ∧
      jget cexJx.payment_details "agentIdentifier" = jget kvs "agentIdentifier" ∧
      jget cexJx.payment_details "unlockTime" = jget kvs "unlockTime" ∧
      jget cexJx.payment_details "externalDisputeUnlockTime" = jget kvs "externalDisputeUnlockTime" ∧
      jget cexJx.payment_details "submitResultTime" = jget kvs "submitResultTime" ∧
      jget cexJx.payment_details "payByTime" = jget kvs "payByTime" ∧
      jget cexJx.payment_details "identifierFromPurchaser" = jget kvs "identifierFromPurchaser" ∧
      jget cexJx.payment_details "amounts" = jget kvs "amounts" ∧
      jget cexJx.payment_details "network" = some (.str "Preprod") ∧
      jget cexJx.payment_details "paymentType" = some (.str "Web3CardanoV1") :=
  payment_descriptor_construction "Preprod" cexJobData cexJx rfl

/-! ## Claim C9 -/

/-- C9: the displayed amount is the first amounts entry of the
job-creation response divided by 1 000 000, and the conversion is
reporting-only: the amounts value forwarded in the payment details is
the unconverted `amounts` sequence of the response. -/
theorem displayed_amount_reporting_only (network : String) (job_data : Json)
    (jx : JobExtract) (h : extractJob network job_data = .ok jx) :
    ∃ kvs amounts n,
      job_data = .obj kvs ∧
      jget kvs "amounts" = some amounts ∧
      (∃ first rest fkvs amt, amounts = .arr (first :: rest) ∧
        first = .obj fkvs ∧ jget fkvs "amount" = some amt ∧ pyInt amt = some n) ∧
      jx.amount_ada = (n : ℚ) / 1000000 ∧
      jget jx.payment_details "amounts" = some amounts := by
  obtain ⟨kvs, job_id, blockchain_id, amounts, first, rest, fkvs, amt, n,
    input_hash, sellerVKey, agentIdentifier, unlockTime,
    externalDisputeUnlockTime, submitResultTime, payByTime,
    identifierFromPurchaser, hkvs, h1, h2, h3, ha, hf2, h4, h5, h6, h7, h8,
    h9, h10, h11, h12, h13, hjx⟩ := extractJob_inv network job_data jx h
  subst hjx
  exact ⟨kvs, amounts, n, hkvs, h3, ⟨first, rest, fkvs, amt, ha, hf2, h4, h5⟩,
    rfl, rfl⟩

/-- C9 (witness): on the concrete response with
`amounts = [(amount, "5000000")]` the displayed amount is `5`, while the
forwarded amounts list is the unconverted response value. -/
theorem displayed_amount_reporting_only_witness :
    (∃ kvs amounts n,
      cexJobData = .obj kvs ∧
      jget kvs "amounts" = some amounts ∧
      (∃ first rest fkvs amt, amounts = .arr (first :: rest) ∧
        first = .obj fkvs ∧ jget fkvs "amount" = some amt ∧ pyInt amt = some n) ∧
      cexJx.amount_ada = (n : ℚ) / 1000000 ∧
      jget cexJx.payment_details "amounts" = some amounts) ∧
    cexJx.amount_ada = 5 ∧
    jget cexJx.payment_details "amounts" =
      some (.arr [.obj [("amount", .str "5000000"), ("unit", .str "lovelace")]]) :=
  ⟨displayed_amount_reporting_only "Preprod" cexJobData cexJx rfl,
   by norm_num [show cexJx.amount_ada = (5000000 : ℚ) / 1000000 from rfl],
   rfl⟩

/-! ## Claim C7 -/

/-- C7: a payment rejection with a structured HTTP error aborts the run
at stage 3: exactly one purchase request and no status poll is issued,
the monitor never starts, and the response body is surfaced verbatim in
the error output. -/
theorem payment_rejection_aborts (env : Env) (k : String) (jd : Json)
    (jx : JobExtract) (e body : String)
    (hkey : env.purchaser_api_key = some k)
    (hav : env.availability = .ok ())
    (hjob : env.startJobResp = .ok jd)
    (hex : extractJob env.network jd = .ok jx)
    (hpay : env.purchaseResp = .httpError e body) :
    runMain env =
      ⟨[.availability, .startJob, .purchase jx.payment_details],
       ["Payment failed: " ++ e, "Response: " ++ body],
       none, some jx.amount_ada, none⟩ ∧
    (runMain env).requests.countP isPurchase = 1 ∧
    (runMain env).requests.countP isStatusPoll = 0 ∧
    ("Response: " ++ body) ∈ (runMain env).errors ∧
    (runMain env).monitor = none := by
  have hmain : runMain env =
      ⟨[.availability, .startJob, .purchase jx.payment_details],
       ["Payment failed: " ++ e, "Response: " ++ body],
       none, some jx.amount_ada, none⟩ := by
    simp [runMain, hkey, hav, hjob, hex, hpay]
  exact ⟨hmain, by rw [hmain]; rfl, by rw [hmain]; rfl,
    by rw [hmain]; exact List.Mem.tail _ (List.Mem.head _), by rw [hmain]⟩

/-- C7 (witness): the rejection theorem on the concrete environment
whose purchase is rejected with the insufficient-funds body; the error
output contains the body verbatim and in particular the substring
`insufficient funds`. -/
theorem payment_rejection_aborts_witness :
    (runMain cexPayEnv).requests.countP isPurchase = 1 ∧
    (runMain cexPayEnv).requests.countP isStatusPoll = 0 ∧
    ("Response: " ++ "\x7b\"message\":\"insufficient funds\"\x7d") ∈
      (runMain cexPayEnv).errors ∧
    (runMain cexPayEnv).monitor = none ∧
    containsSub ("Response: " ++ "\x7b\"message\":\"insufficient funds\"\x7d")
      "insufficient funds" := by
  have h := payment_rejection_aborts cexPayEnv "purchaser-key" cexJobData cexJx
    "402 Client Error" "\x7b\"message\":\"insufficient funds\"\x7d"
    rfl rfl rfl rfl rfl
  exact ⟨h.2.1, h.2.2.1, h.2.2.2.1, h.2.2.2.2,
    "Response: \x7b\"message\":\"", "\"\x7d", by decide⟩

/-! ## Claim C8 -/

/-- C8: if the availability health check fails, no job-creation
request, no payment request, and no status poll is ever issued, and the
monitor never starts: every later stage is gated on the probe. -/
theorem health_check_gates_pipeline (env : Env) (e : String)
    (hav : env.availability = .error e) :
    (runMain env).requests.countP isStartJob = 0 ∧
    (runMain env).requests.countP isPurchase = 0 ∧
    (runMain env).requests.countP isStatusPoll = 0 ∧
    (runMain env).monitor = none := by
  cases hk : env.purchaser_api_key with
  | none => simp [runMain, hk, List.countP_cons, isStartJob, isPurchase, isStatusPoll]
  | some k => simp [runMain, hk, hav, List.countP_cons, isStartJob, isPurchase, isStatusPoll]

/-- C8 (witness): the gating theorem on the concrete environment whose
health check fails with a connection error. -/
theorem health_check_gates_pipeline_witness :
    (runMain cexDownEnv).requests.countP isStartJob = 0 ∧
    (runMain cexDownEnv).requests.countP isPurchase = 0 ∧
    (runMain cexDownEnv).requests.countP isStatusPoll = 0 ∧
    (runMain cexDownEnv).monitor = none :=
  health_check_gates_pipeline cexDownEnv "Connection refused" rfl

/-! ## Email service lemmas -/

/-- The returned result reports success exactly when every validation
on the post-enhancement values passes and the provider send call
returns normally. -/
theorem execute_task_success_iff (env : EmailEnv) (inp : EmailInput) :
    (execute_task env inp).success = true ↔
    (inp.recipient_email.getD "" ≠ "" ∧ (enhancedPair env inp).1 ≠ "" ∧
     (enhancedPair env inp).2 ≠ "" ∧ env.brevo_api_key ≠ "" ∧
     env.sender_email ≠ "" ∧ ∃ mid, env.sendOutcome = .ok mid) := by
  simp only [execute_task]
  split_ifs with h1 h2 h3 h4 h5
  · simp [mkServiceResult, h1]
  · simp [mkServiceResult, h2]
  · simp [mkServiceResult, h3]
  · simp [mkServiceResult, h4]
  · simp [mkServiceResult, h5]
  · cases hs : env.sendOutcome with
    | ok mid => simp [mkServiceResult, h1, h2, h3, h4, h5, hs]
    | error se =>
      cases se with
      | api e => simp [mkServiceResult, h1, h2, h3, h4, h5, hs]
      | other e => simp [mkServiceResult, h1, h2, h3, h4, h5, hs]

/-! ## Claim C6 -/

/-- C6: every failure mode of the optional enhancement step — the
libraries not importable, the API key not configured, an exception from
the model invocation, a model response that parses neither directly nor
through the extracted brace-delimited fragment, a parsed value that is
not a dict, or a field that makes `.strip()` raise — falls back to the
caller-supplied original subject and body unchanged; and this swallow
is confined to the enhancement step: a provider error in
`execute_task` is never absorbed into a successful result. -/
theorem enhancement_falls_back (env : EnhanceEnv) (kp : List String)
    (s b : String) :
    (env.langchainAvailable = false →
      enhance_email_with_gemini env kp s b = (s, b)) ∧
    (env.gemini_api_key = "" →
      enhance_email_with_gemini env kp s b = (s, b)) ∧
    (∀ e, env.invoke = .error e →
      enhance_email_with_gemini env kp s b = (s, b)) ∧
    (∀ text, env.invoke = .ok text → env.loads text = none →
      env.regexExtract text = none →
      enhance_email_with_gemini env kp s b = (s, b)) ∧
    (∀ text frag, env.invoke = .ok text → env.loads text = none →
      env.regexExtract text = some frag → env.loads frag = none →
      enhance_email_with_gemini env kp s b = (s, b)) ∧
    (∀ text d, env.invoke = .ok text → env.loads text = some d →
      isObjJ d = false →
      enhance_email_with_gemini env kp s b = (s, b)) ∧
    (∀ text kvs, env.invoke = .ok text → env.loads text = some (.obj kvs) →
      (stripJ (pyOrStr (jget kvs "subject") s) = none ∨
       stripJ (pyOrStr (jget kvs "body") b) = none) →
      enhance_email_with_gemini env kp s b = (s, b)) ∧
    (∀ (eenv : EmailEnv) (inp : EmailInput) (se : SendErr),
      eenv.sendOutcome = .error se →
      (execute_task eenv inp).success = false) := by
  refine ⟨?_, ?_, ?_, ?_, ?_, ?_, ?_, ?_⟩
  · intro h
    simp [enhance_email_with_gemini, h]
  · intro h
    by_cases ha : env.langchainAvailable <;>
      simp [enhance_email_with_gemini, ha, h]
  · intro e h
    by_cases ha : env.langchainAvailable <;>
      by_cases hk : env.gemini_api_key = "" <;>
        simp [enhance_email_with_gemini, ha, hk, h]
  · intro text h hl hr
    by_cases ha : env.langchainAvailable <;>
      by_cases hk : env.gemini_api_key = "" <;>
        simp [enhance_email_with_gemini, ha, hk, h, hl, hr]
  · intro text frag h hl hr hl2
    by_cases ha : env.langchainAvailable <;>
      by_cases hk : env.gemini_api_key = "" <;>
        simp [enhance_email_with_gemini, ha, hk, h, hl, hr, hl2]
  · intro text d h hl hd
    by_cases ha : env.langchainAvailable <;>
      by_cases hk : env.gemini_api_key = "" <;>
        cases d <;> simp_all [enhance_email_with_gemini, isObjJ]
  · intro text kvs h hl hstr
    by_cases ha : env.langchainAvailable <;>
      by_cases hk : env.gemini_api_key = ""
    · simp [enhance_email_with_gemini, ha, hk, h, hl]
    · rcases hstr with hs1 | hs2
      · simp [enhance_email_with_gemini, ha, hk, h, hl, hs1]
      · cases hfirst : stripJ (pyOrStr (jget kvs "subject") s) <;>
          simp [enhance_email_with_gemini, ha, hk, h, hl, hfirst, hs2]
    · simp [enhance_email_with_gemini, ha, hk, h, hl]
    · simp [enhance_email_with_gemini, ha, hk, h, hl]
  · intro eenv inp se hse
    have hiff := execute_task_success_iff eenv inp
    cases hsu : (execute_task eenv inp).success with
    | false => rfl
    | true =>
      obtain ⟨_, _, _, _, _, mid, hmid⟩ := hiff.mp hsu
      rw [hse] at hmid
      exact absurd hmid (by simp)

/-- C6 (witness): the fallback theorem on the concrete unavailable
enhancement environment, plus the concrete provider-error run whose
failure is surfaced in the result rather than swallowed. -/
theorem enhancement_falls_back_witness :
    enhance_email_with_gemini cexEnhOff ["key point 1", "key point 2"]
      "Orig subject" "Orig body" = ("Orig subject", "Orig body") ∧
    (execute_task cexEmailEnvErr cexEmailInputFull).success = false := by
  have h := enhancement_falls_back cexEnhOff ["key point 1", "key point 2"]
    "Orig subject" "Orig body"
  exact ⟨h.1 rfl,
    h.2.2.2.2.2.2.2 cexEmailEnvErr cexEmailInputFull (.other "boom") rfl⟩

/-! ## Claim C10 -/

/-- C10 (amended): `execute_task` is total and always returns a
`ServiceResult`; it reports success exactly when the recipient and the
post-enhancement subject and body are non-empty, the Brevo key and the
sender email are configured, and the provider call returns normally.
Each failure names its cause in the message.  A missing recipient
always fails; a missing subject or body fails whenever the enhancement
step leaves it empty — in particular always when the enhancement
libraries are unavailable — but an active enhancement step can fill in
a missing subject or body before validation (see the
counterexample). -/
theorem execute_task_result_contract (env : EmailEnv) (inp : EmailInput) :
    ((execute_task env inp).success = true ↔
      (inp.recipient_email.getD "" ≠ "" ∧ (enhancedPair env inp).1 ≠ "" ∧
       (enhancedPair env inp).2 ≠ "" ∧ env.brevo_api_key ≠ "" ∧
       env.sender_email ≠ "" ∧ ∃ mid, env.sendOutcome = .ok mid)) ∧
    (inp.recipient_email.getD "" = "" →
      (execute_task env inp).success = false ∧
      (execute_task env inp).message = "recipient_email is required") ∧
    (inp.recipient_email.getD "" ≠ "" → (enhancedPair env inp).1 = "" →
      (execute_task env inp).success = false ∧
      (execute_task env inp).message = "subject is required") ∧
    (inp.recipient_email.getD "" ≠ "" → (enhancedPair env inp).1 ≠ "" →
      (enhancedPair env inp).2 = "" →
      (execute_task env inp).success = false ∧
      (execute_task env inp).message = "body is required") ∧
    (inp.recipient_email.getD "" ≠ "" → (enhancedPair env inp).1 ≠ "" →
      (enhancedPair env inp).2 ≠ "" → env.brevo_api_key = "" →
      (execute_task env inp).success = false ∧
      (execute_task env inp).message =
        "Brevo API key not configured (BREVO_API_KEY missing)") ∧
    (inp.recipient_email.getD "" ≠ "" → (enhancedPair env inp).1 ≠ "" →
      (enhancedPair env inp).2 ≠ "" → env.brevo_api_key ≠ "" →
      env.sender_email = "" →
      (execute_task env inp).success = false ∧
      (execute_task env inp).message =
        "Sender email not configured (SENDER_EMAIL missing)") ∧
    (∀ e, inp.recipient_email.getD "" ≠ "" → (enhancedPair env inp).1 ≠ "" →
      (enhancedPair env inp).2 ≠ "" → env.brevo_api_key ≠ "" →
      env.sender_email ≠ "" → env.sendOutcome = .error (.api e) →
      (execute_task env inp).success = false ∧
      (execute_task env inp).message = "Brevo API error: " ++ e) ∧
    (∀ e, inp.recipient_email.getD "" ≠ "" → (enhancedPair env inp).1 ≠ "" →
      (enhancedPair env inp).2 ≠ "" → env.brevo_api_key ≠ "" →
      env.sender_email ≠ "" → env.sendOutcome = .error (.other e) →
      (execute_task env inp).success = false ∧
      (execute_task env inp).message = "Error sending email: " ++ e) ∧
    (∀ mid, inp.recipient_email.getD "" ≠ "" → (enhancedPair env inp).1 ≠ "" →
      (enhancedPair env inp).2 ≠ "" → env.brevo_api_key ≠ "" →
      env.sender_email ≠ "" → env.sendOutcome = .ok mid →
      (execute_task env inp).success = true ∧
      (execute_task env inp).message =
        "Email sent successfully to " ++ inp.recipient_email.getD ""
          ++ " (Message ID: " ++ mid ++ ")") ∧
    (env.enhance.langchainAvailable = false →
      inp.recipient_email.getD "" ≠ "" → inp.subject = none →
      (execute_task env inp).success = false ∧
      (execute_task env inp).message = "subject is required") := by
  refine ⟨execute_task_success_iff env inp, ?_, ?_, ?_, ?_, ?_, ?_, ?_, ?_, ?_⟩
  · intro h1
    constructor <;> simp [execute_task, mkServiceResult, h1]
  · intro h1 h2
    constructor <;> simp [execute_task, mkServiceResult, h1, h2]
  · intro h1 h2 h3
    constructor <;> simp [execute_task, mkServiceResult, h1, h2, h3]
  · intro h1 h2 h3 h4
    constructor <;> simp [execute_task, mkServiceResult, h1, h2, h3, h4]
  · intro h1 h2 h3 h4 h5
    constructor <;> simp [execute_task, mkServiceResult, h1, h2, h3, h4, h5]
  · intro e h1 h2 h3 h4 h5 hs
    constructor <;> simp [execute_task, mkServiceResult, h1, h2, h3, h4, h5, hs]
  · intro e h1 h2 h3 h4 h5 hs
    constructor <;> simp [execute_task, mkServiceResult, h1, h2, h3, h4, h5, hs]
  · intro mid h1 h2 h3 h4 h5 hs
    constructor <;> simp [execute_task, mkServiceResult, h1, h2, h3, h4, h5, hs]
  · intro ha h1 hsubj
    have hsub : (enhancedPair env inp).1 = "" := by
      simp [enhancedPair, enhance_email_with_gemini, ha, hsubj]
    constructor <;> simp [execute_task, mkServiceResult, h1, hsub]

/-- C10 (counterexample to the claim as stated): with the enhancement
step active and its model answer supplying a subject and body, a
missing `subject` key in the input still yields a successful send —
the validations run on the post-enhancement values, not on the
caller-supplied ones. -/
theorem missing_subject_can_succeed :
    cexEmailInput.subject = none ∧
    (execute_task cexEmailEnv cexEmailInput).success = true :=
  ⟨rfl, rfl⟩

/-- C10 (witness): the contract theorem on the concrete environment
without enhancement and with a working provider. -/
theorem execute_task_result_contract_witness :
    (execute_task
      { brevo_api_key := "bk-1", sender_email := "sender@example.com",
        sender_name := "Email Service", enhance := cexEnhOff,
        sendOutcome := .ok "msg-id-1" } cexEmailInputFull).success = true ∧
    (execute_task
      { brevo_api_key := "bk-1", sender_email := "sender@example.com",
        sender_name := "Email Service", enhance := cexEnhOff,
        sendOutcome := .ok "msg-id-1" } cexEmailInputFull).message =
      "Email sent successfully to user@example.com (Message ID: msg-id-1)" := by
  have h := execute_task_result_contract
    { brevo_api_key := "bk-1", sender_email := "sender@example.com",
      sender_name := "Email Service", enhance := cexEnhOff,
      sendOutcome := .ok "msg-id-1" } cexEmailInputFull
  have h9 := h.2.2.2.2.2.2.2.2.1 "msg-id-1" (by decide) (by decide) (by decide)
    (by decide) (by decide) rfl
  exact ⟨h9.1, h9.2⟩
